import Mathlib

/-!
Shallow embedding of the @orgsoft/jsr client/aggregation layer (common.ts and
the MCP compare tool handler), together with proofs about the download-series
aggregator, the similarity-search enrichment pipeline and the comparison
resolver.  Network calls are modelled by passing the outcome of each external
request as an explicit argument (an Except value for a fetch that can throw, a
function from the built search parameters to a backend outcome for the Orama
client).  JavaScript numbers holding download counts are modelled as Nat;
Math.round of an exact quotient of naturals is modelled as round-half-up on
rationals, which for a/b with b > 0 equals (2*a + b) / (2*b) in Nat division.
-/

/-- One data point in a download timeline (interface JsrDownloadPoint). -/
structure JsrDownloadPoint where
  timeBucket : String
  count : Nat
  deriving Repr, DecidableEq

/-- Download statistics for one package version (interface JsrVersionDownloads). -/
structure JsrVersionDownloads where
  version : String
  downloads : List JsrDownloadPoint
  deriving Repr, DecidableEq

/-- Raw download statistics returned by the JSR API (interface JsrDownloads). -/
structure JsrDownloads where
  total : List JsrDownloadPoint
  recentVersions : List JsrVersionDownloads
  deriving Repr, DecidableEq

/-- Computed download statistics (interface DownloadSummary). -/
structure DownloadSummary where
  totalDownloads : Nat
  recentDownloads : Nat
  latestVersion : String
  latestVersionDownloads : Nat
  activityEntries : Nat
  lastActivity : Option String := none
  last7DaysAverage : Nat
  weeklyAverage : Nat
  monthlyAverage : Nat
  weeklySums : List Nat
  monthlySums : List Nat
  error : Option String := none
  deriving Repr, DecidableEq

/-- Sum of the count fields of a list of points; models
Array.prototype.reduce((sum, entry) => sum + entry.count, 0). -/
def sumCounts (points : List JsrDownloadPoint) : Nat :=
  (points.map (fun p => p.count)).sum

/-- Math.round of the exact quotient num/den of two naturals (round half up). -/
def jsRound (num den : Nat) : Nat :=
  (2 * num + den) / (2 * den)

/-- The sum over the trailing window with index i (0 = most recent) of the
given size: the slice of points [len - size*(i+1), len - size*i).  In the
source this is weekData/monthData reduced over slice(weekStart, weekEnd). -/
def windowSum (totalData : List JsrDownloadPoint) (size i : Nat) : Nat :=
  sumCounts ((totalData.drop (totalData.length - size * (i + 1))).take size)

/-- The loop that builds weeklySums (size 7, windows 4) and monthlySums
(size 30, windows 6): for i in [0, windows), if the window start index
len - size - size*i is nonnegative (expressed in Nat as size*(i+1) <= len),
unshift the window sum, so the result ends up oldest first. -/
def trailingWindowSums (totalData : List JsrDownloadPoint) (size windows : Nat) : List Nat :=
  (List.range windows).foldl
    (fun sums i =>
      if size * (i + 1) ≤ totalData.length then windowSum totalData size i :: sums else sums)
    []

/-- The body of the try block of getPackageDownloadSummary: folds the raw
JsrDownloads into a DownloadSummary.  Pure; no error is set on this path. -/
def summarizeDownloads (downloads : JsrDownloads) : DownloadSummary :=
  let totalData := downloads.total
  let totalDownloads := sumCounts totalData
  -- recentActivity = downloads.total.slice(-30)
  let recentActivity := totalData.drop (totalData.length - 30)
  let recentDownloads := sumCounts recentActivity
  -- last7Days = totalData.slice(-7)
  let last7Days := totalData.drop (totalData.length - 7)
  let last7DaysTotal := sumCounts last7Days
  let last7DaysAverage := if 0 < last7Days.length then jsRound last7DaysTotal last7Days.length else 0
  let totalEntries := totalData.length
  let dailyAverage := if 0 < totalEntries then jsRound totalDownloads totalEntries else 0
  let weeklyAverage := dailyAverage * 7
  let monthlyAverage := dailyAverage * 30
  let weeklySums := trailingWindowSums totalData 7 4
  let monthlySums := trailingWindowSums totalData 30 6
  let latestVersionEntry := downloads.recentVersions.head?
  let latestVersionDownloads :=
    match latestVersionEntry with
    | some v => sumCounts v.downloads
    | none => 0
  { totalDownloads := totalDownloads,
    recentDownloads := recentDownloads,
    -- latestVersion?.version followed by the Unknown default (empty string is falsy in JS)
    latestVersion :=
      match latestVersionEntry with
      | some v => if v.version = ("") then ("Unknown") else v.version
      | none => ("Unknown"),
    latestVersionDownloads := latestVersionDownloads,
    activityEntries := recentActivity.length,
    -- recentActivity[recentActivity.length - 1]?.timeBucket || undefined
    lastActivity :=
      match recentActivity.getLast? with
      | some p => if p.timeBucket = ("") then none else some p.timeBucket
      | none => none,
    last7DaysAverage := last7DaysAverage,
    weeklyAverage := weeklyAverage,
    monthlyAverage := monthlyAverage,
    weeklySums := weeklySums,
    monthlySums := monthlySums,
    error := none }

/-- getPackageDownloadSummary, parameterized by the outcome of the
getPackageDownloads fetch (ok data, or the message of a thrown error).  The
catch branch returns the all-zero summary with the error field set. -/
def getPackageDownloadSummary (fetched : Except String JsrDownloads) : DownloadSummary :=
  match fetched with
  | Except.ok downloads => summarizeDownloads downloads
  | Except.error e =>
      { totalDownloads := 0,
        recentDownloads := 0,
        latestVersion := ("Unknown"),
        latestVersionDownloads := 0,
        activityEntries := 0,
        lastActivity := none,
        last7DaysAverage := 0,
        weeklyAverage := 0,
        monthlyAverage := 0,
        weeklySums := [],
        monthlySums := [],
        error := some e }

/-- Package metadata document (interface PackageInfo); optional fields are
Options, defaulting to absent.  The unused nested githubRepository record is
omitted. -/
structure PackageInfo where
  id : String
  name : String
  scope : String
  description : String
  score : Option Rat := none
  runtimeCompat : Option (List (String × Bool)) := none
  latestVersion : Option String := none
  versionCount : Option Nat := none
  dependencyCount : Option Nat := none
  dependentCount : Option Nat := none
  updatedAt : Option String := none
  createdAt : Option String := none
  isArchived : Option Bool := none
  readmeSource : Option String := none
  whenFeatured : Option String := none
  latest : Option String := none
  deriving Repr, DecidableEq

/-- One Orama search hit (interface OramaHit). -/
structure OramaHit where
  document : PackageInfo
  score : Rat
  deriving Repr, DecidableEq

/-- Search result shape returned by queryOrama (interface OramaSearchResult). -/
structure OramaSearchResult where
  count : Nat
  hits : List OramaHit
  error : Option String := none
  deriving Repr, DecidableEq

/-- An Orama hit enhanced with optional download data (interface
EnhancedOramaHit). -/
structure EnhancedOramaHit where
  document : PackageInfo
  score : Rat
  downloads : Option DownloadSummary := none
  deriving Repr, DecidableEq

/-- A field-boost record; a missing key is none (the source uses object
literals with a subset of the four keys). -/
structure Boost where
  id : Option Rat := none
  scope : Option Rat := none
  name : Option Rat := none
  description : Option Rat := none
  deriving Repr, DecidableEq

/-- Caller-supplied search options (interface OramaSearchOptions); a key that
the caller did not pass is none, mirroring JS object-key presence. -/
structure OramaSearchOptions where
  limit : Option Nat := none
  offset : Option Nat := none
  mode : Option String := none
  boost : Option Boost := none
  deriving Repr, DecidableEq

/-- The search parameters actually handed to the Orama client after queryOrama
builds its searchParams object. -/
structure SearchParams where
  term : String
  limit : Nat
  offset : Nat
  boost : Boost
  mode : String
  deriving Repr, DecidableEq

/-- JS truthiness default for numbers: v || dflt treats 0 as falsy. -/
def jsOrNat (v : Option Nat) (dflt : Nat) : Nat :=
  match v with
  | some n => if n = 0 then dflt else n
  | none => dflt

/-- JS truthiness default for strings: v || dflt treats "" as falsy. -/
def jsOrStr (v : Option String) (dflt : String) : String :=
  match v with
  | some s => if s = ("") then dflt else s
  | none => dflt

/-- Key override of a JS object spread: a key present in the spread object
replaces the literal value written earlier in the same object literal. -/
def overrideKey {α : Type} (base over : Option α) : Option α :=
  match over with
  | some v => some v
  | none => base

/-- The default boost of queryOrama: { id: 3, scope: 2, name: 1,
description: 0.5 }. -/
def defaultQueryBoost : Boost :=
  { id := some 3, scope := some 2, name := some 1, description := some ((1 : Rat) / 2) }

/-- The searchParams object built inside queryOrama:
{ term, limit: options.limit || 20, offset: options.offset || 0,
  boost: default, mode: options.mode || "fulltext", ...options }.
Because the spread comes last, every key the caller passed overrides the
literal defaults written before it. -/
def buildSearchParams (query : String) (options : OramaSearchOptions) : SearchParams :=
  { term := query,
    limit := (overrideKey (some (jsOrNat options.limit 20)) options.limit).getD 20,
    offset := (overrideKey (some (jsOrNat options.offset 0)) options.offset).getD 0,
    boost := (overrideKey (some defaultQueryBoost) options.boost).getD defaultQueryBoost,
    mode := (overrideKey (some (jsOrStr options.mode ("fulltext"))) options.mode).getD ("fulltext") }

/-- Outcome of the Orama client.search call: a result object, a null
response, an error carrying an httpResponse, or some other thrown error. -/
inductive BackendOutcome where
  | ok (res : OramaSearchResult)
  | nullResponse
  | apiError (body : String)
  | thrown (message : String)
  deriving Repr, DecidableEq

/-- queryOrama: builds the search parameters, invokes the backend, and
converts every failure into an empty result with an error message (the catch
branches of the source). -/
def queryOrama (query : String) (options : OramaSearchOptions)
    (backend : SearchParams → BackendOutcome) : OramaSearchResult :=
  match backend (buildSearchParams query options) with
  | BackendOutcome.ok res => res
  | BackendOutcome.nullResponse =>
      { count := 0, hits := [], error := some ("Search failed: received null response") }
  | BackendOutcome.apiError body =>
      { count := 0, hits := [], error := some (("Orama API error: ") ++ body) }
  | BackendOutcome.thrown message =>
      { count := 0, hits := [], error := some (("Search failed: ") ++ message) }

/-- Options accepted by findSimilarPackages: OramaSearchOptions plus
includeDownloads. -/
structure FindSimilarOptions where
  limit : Option Nat := none
  offset : Option Nat := none
  mode : Option String := none
  boost : Option Boost := none
  includeDownloads : Option Bool := none
  deriving Repr, DecidableEq

/-- The OramaSearchOptions part of FindSimilarOptions (what the object spread
contributes to the second queryOrama call, ignoring the extra
includeDownloads key, which the backend does not read). -/
def FindSimilarOptions.toOrama (o : FindSimilarOptions) : OramaSearchOptions :=
  { limit := o.limit, offset := o.offset, mode := o.mode, boost := o.boost }

/-- Spread of caller options over an options object literal:
{ ...literal, ...options }; caller keys win. -/
def spreadOptions (base over : OramaSearchOptions) : OramaSearchOptions :=
  { limit := overrideKey base.limit over.limit,
    offset := overrideKey base.offset over.offset,
    mode := overrideKey base.mode over.mode,
    boost := overrideKey base.boost over.boost }

/-- Boost of the first (resolution) search of findSimilarPackages:
{ name: 5, scope: 3, id: 2 }. -/
def firstSearchBoost : Boost :=
  { name := some 5, scope := some 3, id := some 2 }

/-- Options of the first search of findSimilarPackages:
{ limit: 1, boost: firstSearchBoost }. -/
def firstSearchOptions : OramaSearchOptions :=
  { limit := some 1, boost := some firstSearchBoost }

/-- Boost of the second (similarity) search of findSimilarPackages:
{ description: 2.5, name: 1.8, scope: 1.0, id: 0.2 }. -/
def similarSearchBoost : Boost :=
  { description := some ((5 : Rat) / 2), name := some ((9 : Rat) / 5),
    scope := some 1, id := some ((1 : Rat) / 5) }

/-- The options object of the second search:
{ limit: (options.limit || 10) + 1, boost: similarSearchBoost, ...options }.
The trailing spread lets a caller-supplied limit (and boost) override the
literal over-fetching limit written before it. -/
def similarSearchOptions (options : FindSimilarOptions) : OramaSearchOptions :=
  spreadOptions
    { limit := some (jsOrNat options.limit 10 + 1), boost := some similarSearchBoost }
    options.toOrama

/-- The document of the single hit of the first search, when there is one:
packageResult.hits[0].document. -/
def resolvedPackage (packageName : String)
    (backend : SearchParams → BackendOutcome) : Option PackageInfo :=
  ((queryOrama packageName firstSearchOptions backend).hits.head?).map
    (fun hit => hit.document)

/-- The hit list surviving self-exclusion and truncation: the second search
result hits, filtered by document id different from the original package id, then
slice(0, options.limit || 10). -/
def survivingHits (packageName : String) (options : FindSimilarOptions)
    (backend : SearchParams → BackendOutcome) : List OramaHit :=
  match resolvedPackage packageName backend with
  | none => []
  | some pkg =>
      let searchQuery := (pkg.name ++ (" ") ++ pkg.description).trim
      let similarResults := queryOrama searchQuery (similarSearchOptions options) backend
      (similarResults.hits.filter (fun hit => hit.document.id != pkg.id)).take
        (jsOrNat options.limit 10)

/-- The summary attached to a hit by the per-hit enrichment task:
downloads.error ? undefined : downloads on success, and no summary at all if
the fetch threw. -/
def attachedSummary (fetched : Except String DownloadSummary) : Option DownloadSummary :=
  match fetched with
  | Except.ok s => if s.error.isSome then none else some s
  | Except.error _ => none

/-- The per-hit enrichment task of findSimilarPackages: fetch the download
summary for the scope and name of the hit, catching failure, and attach the
result. -/
def enhanceHit (fetchSummary : String → String → Except String DownloadSummary)
    (hit : OramaHit) : EnhancedOramaHit :=
  { document := hit.document, score := hit.score,
    downloads := attachedSummary (fetchSummary hit.document.scope hit.document.name) }

/-- Result of findSimilarPackages: EnhancedOramaSearchResult plus the
optional originalPackage. -/
structure FindSimilarResult where
  hits : List EnhancedOramaHit
  count : Nat
  error : Option String := none
  originalPackage : Option PackageInfo := none
  deriving Repr, DecidableEq

/-- findSimilarPackages, parameterized by the search backend and by the
per-package download-summary fetch.  Promise.all over the per-hit tasks is
modelled as List.map, which preserves both order and length. -/
def findSimilarPackages (packageName : String) (options : FindSimilarOptions)
    (backend : SearchParams → BackendOutcome)
    (fetchSummary : String → String → Except String DownloadSummary) : FindSimilarResult :=
  let includeDownloads : Bool := options.includeDownloads != some false
  match resolvedPackage packageName backend with
  | none => { hits := [], count := 0, error := some ("Package not found") }
  | some pkg =>
      let limitedResults := survivingHits packageName options backend
      let enhancedHits :=
        if includeDownloads then
          limitedResults.map (enhanceHit fetchSummary)
        else
          limitedResults.map
            (fun hit => { document := hit.document, score := hit.score, downloads := none })
      { hits := enhancedHits, count := enhancedHits.length, error := none,
        originalPackage := some pkg }

/-- Splits a character list at its first slash; none when no slash occurs. -/
def splitFirstSlash : List Char → Option (List Char × List Char)
  | [] => none
  | c :: rest =>
      if c = '/' then some ([], rest)
      else
        match splitFirstSlash rest with
        | some (pre, post) => some (c :: pre, post)
        | none => none

/-- The regex match of the compare tool handler:
pkgName.match of caret, optional at sign, ([^/]+), slash, (.+), end.
An optional leading at sign is stripped, the scope is the nonempty run up to
the first slash, and the name is the nonempty remainder (which may itself
contain slashes). -/
def parsePackageName (pkgName : String) : Option (String × String) :=
  let stripped :=
    match pkgName.data with
    | '@' :: rest => rest
    | cs => cs
  match splitFirstSlash stripped with
  | none => none
  | some (scopeChars, nameChars) =>
      if scopeChars = [] ∨ nameChars = [] then none
      else some (String.mk scopeChars, String.mk nameChars)

/-- The external calls available to the compare tool handler: the direct
meta.json lookup (getPackageInfoDirect, including its internal fallback to
getPackageDetails), the details fetch (getPackageDetails), the download
summary (getPackageDownloadSummary, which never throws), and the Orama
backend. -/
structure CompareEnv where
  infoDirect : String → String → Except String PackageInfo
  details : String → String → Except String PackageInfo
  summary : String → String → DownloadSummary
  backend : SearchParams → BackendOutcome

/-- One entry pushed to packageDetails by the compare tool handler; keys that
a branch does not set are absent (none / false). -/
structure ComparedPackage where
  id : String
  name : Option String := none
  scope : Option String := none
  description : Option String := none
  runtimeCompat : Option (List (String × Bool)) := none
  score : Option Rat := none
  latestVersion : Option String := none
  recentDownloads : Option Nat := none
  totalDownloads : Option Nat := none
  updatedAt : Option String := none
  versionCount : Option Nat := none
  found : Bool := false
  fallback : Bool := false
  error : Option String := none
  deriving Repr, DecidableEq

/-- The entry recorded when the identifier does not match the scope/name
pattern. -/
def invalidFormatEntry (pkgName : String) : ComparedPackage :=
  { id := pkgName, found := false,
    error := some ("Invalid package format. Use @scope/name or scope/name") }

/-- The sequence of the two fallible calls of the exact-lookup path
(getPackageInfoDirect then getPackageDetails); the first failure aborts the
path. -/
def exactLookup (env : CompareEnv) (scope name : String) :
    Except String (PackageInfo × PackageInfo) := do
  let pkg ← env.infoDirect scope name
  let details ← env.details scope name
  pure (pkg, details)

/-- Boost of the fallback search of the compare handler:
{ name: 10, id: 8, scope: 5 }. -/
def compareFallbackBoost : Boost :=
  { name := some 10, id := some 8, scope := some 5 }

/-- Options of the fallback search of the compare handler:
{ limit: 1, mode: "fulltext", boost: compareFallbackBoost }. -/
def fallbackSearchOptions : OramaSearchOptions :=
  { limit := some 1, mode := some ("fulltext"), boost := some compareFallbackBoost }

/-- The per-identifier body of the compare tool handler: parse, try the exact
lookup path, on failure fall back to a single fuzzy search, else record
not-found. -/
def resolveIdentifier (env : CompareEnv) (pkgName : String) : ComparedPackage :=
  match parsePackageName pkgName with
  | none => invalidFormatEntry pkgName
  | some (scope, name) =>
      match exactLookup env scope name with
      | Except.ok (pkg, details) =>
          let downloadSummary := env.summary scope name
          { id := ("@") ++ scope ++ ("/") ++ name,
            name := some name,
            scope := some scope,
            description := some details.description,
            runtimeCompat := details.runtimeCompat,
            score := details.score,
            latestVersion := pkg.latest,
            recentDownloads := some downloadSummary.recentDownloads,
            totalDownloads := some downloadSummary.totalDownloads,
            updatedAt := details.updatedAt,
            versionCount := details.versionCount,
            found := true }
      | Except.error _ =>
          let searchResult := queryOrama pkgName fallbackSearchOptions env.backend
          match searchResult.hits.head? with
          | some hit =>
              { id := hit.document.id,
                name := some hit.document.name,
                scope := some hit.document.scope,
                description := some hit.document.description,
                runtimeCompat := hit.document.runtimeCompat,
                score := hit.document.score,
                found := true,
                fallback := true }
          | none =>
              { id := pkgName, found := false, error := some ("Package not found") }

/-- The compare tool handler over a list of identifiers: resolve each,
then partition into found and not-found. -/
def comparePackages (env : CompareEnv) (packages : List String) :
    List ComparedPackage × List ComparedPackage :=
  let packageDetails := packages.map (resolveIdentifier env)
  (packageDetails.filter (fun p => p.found),
   packageDetails.filter (fun p => !p.found))

/-- Builds a download timeline with the given counts (concrete test data). -/
def mkPoints (counts : List Nat) : List JsrDownloadPoint :=
  counts.map (fun c => { timeBucket := ("day"), count := c })

/-- Concrete 14-point series. -/
def seriesFourteen : JsrDownloads :=
  { total := mkPoints [1, 2, 3, 4, 5, 6, 7, 8, 9, 10, 11, 12, 13, 14], recentVersions := [] }

/-- Concrete 5-point series. -/
def seriesFive : JsrDownloads :=
  { total := mkPoints [5, 6, 7, 8, 9], recentVersions := [] }

/-- Concrete 65-point series. -/
def seriesSixtyFive : JsrDownloads :=
  { total := mkPoints ((List.range 65).map (fun i => i + 1)), recentVersions := [] }

/-- Concrete empty series. -/
def emptySeries : JsrDownloads :=
  { total := [], recentVersions := [] }

/-- Concrete all-zero summary with no error, used as a stand-in fetch result
in test environments. -/
def plainSummary : DownloadSummary :=
  { totalDownloads := 0, recentDownloads := 0, latestVersion := ("Unknown"),
    latestVersionDownloads := 0, activityEntries := 0, last7DaysAverage := 0,
    weeklyAverage := 0, monthlyAverage := 0, weeklySums := [], monthlySums := [] }

/-- Concrete healthy summary carrying data and no error. -/
def healthySummary : DownloadSummary :=
  { totalDownloads := 9, recentDownloads := 9, latestVersion := ("1.0.0"),
    latestVersionDownloads := 9, activityEntries := 3, last7DaysAverage := 3,
    weeklyAverage := 21, monthlyAverage := 90, weeklySums := [9], monthlySums := [] }

/-- Concrete documents for the enrichment tests. -/
def pkgOrig : PackageInfo :=
  { id := ("o/o"), name := ("o"), scope := ("o"), description := ("orig") }

/-- Concrete document b/b. -/
def pkgB : PackageInfo :=
  { id := ("b/b"), name := ("b"), scope := ("b"), description := ("bee") }

/-- Concrete document c/c. -/
def pkgC : PackageInfo :=
  { id := ("c/c"), name := ("c"), scope := ("c"), description := ("cee") }

/-- Backend for the degradation test: the limit-1 resolution search returns
the original package, every other search returns two other packages. -/
def backendDegrade : SearchParams → BackendOutcome :=
  fun params =>
    if params.limit = 1 then
      BackendOutcome.ok { count := 1, hits := [{ document := pkgOrig, score := 1 }] }
    else
      BackendOutcome.ok
        { count := 2,
          hits := [{ document := pkgB, score := 1 }, { document := pkgC, score := 1 }] }

/-- Download fetch for the degradation test: fails for scope b, succeeds
elsewhere. -/
def fetchDegrade : String → String → Except String DownloadSummary :=
  fun scope _ =>
    if scope = ("b") then Except.error ("HTTP error! status: 500")
    else Except.ok healthySummary

/-- Backend for the self-exclusion test: the second search ranks the original
package first. -/
def backendSelf : SearchParams → BackendOutcome :=
  fun params =>
    if params.limit = 1 then
      BackendOutcome.ok { count := 1, hits := [{ document := pkgOrig, score := 1 }] }
    else
      BackendOutcome.ok
        { count := 2,
          hits := [{ document := pkgOrig, score := 2 }, { document := pkgB, score := 1 }] }

/-- Download fetch that always fails. -/
def fetchAlwaysFails : String → String → Except String DownloadSummary :=
  fun _ _ => Except.error ("HTTP error! status: 500")

/-- Backend whose every search throws. -/
def backendDown : SearchParams → BackendOutcome :=
  fun _ => BackendOutcome.thrown ("network down")

/-- Concrete document used by the compare-tool environments. -/
def pkgRich : PackageInfo :=
  { id := ("std/http"), name := ("http"), scope := ("std"), description := ("server") }

/-- Compare environment whose exact-lookup path fails and whose fallback
search returns one hit. -/
def envFallback : CompareEnv :=
  { infoDirect := fun _ _ => Except.error ("HTTP error! status: 404"),
    details := fun _ _ => Except.error ("HTTP error! status: 404"),
    summary := fun _ _ => plainSummary,
    backend := fun _ =>
      BackendOutcome.ok { count := 1, hits := [{ document := pkgRich, score := 1 }] } }

/-- Compare environment in which both the exact lookup and the fallback
search would succeed for any identifier. -/
def envRich : CompareEnv :=
  { infoDirect := fun _ _ => Except.ok pkgRich,
    details := fun _ _ => Except.ok pkgRich,
    summary := fun _ _ => plainSummary,
    backend := fun _ =>
      BackendOutcome.ok { count := 1, hits := [{ document := pkgRich, score := 1 }] } }

/-- The loop body of trailingWindowSums, rewritten as reverse of a map over a
filtered index list: each unshift prepends, so the fold produces the kept
window sums in reverse index order. -/
theorem trailingWindowSums_foldl (totalData : List JsrDownloadPoint) (size : Nat) :
    ∀ (l : List Nat) (acc : List Nat),
      l.foldl
        (fun sums i =>
          if size * (i + 1) ≤ totalData.length then windowSum totalData size i :: sums
          else sums)
        acc
      = ((l.filter (fun i => decide (size * (i + 1) ≤ totalData.length))).map
            (windowSum totalData size)).reverse ++ acc := by
  intro l
  induction l with
  | nil => intro acc; simp
  | cons a t ih =>
      intro acc
      by_cases hp : size * (a + 1) ≤ totalData.length
      · simp [List.filter_cons, hp, ih]
      · simp [List.filter_cons, hp, ih]

/-- The indices kept by the window guard form an initial segment: index i is
kept iff i < len / size, so filtering the range leaves range (min w (len / size)). -/
theorem filter_range_le (len size w : Nat) (hs : 0 < size) :
    (List.range w).filter (fun i => decide (size * (i + 1) ≤ len))
      = List.range (min w (len / size)) := by
  induction w with
  | zero => simp
  | succ n ih =>
      rw [List.range_succ, List.filter_append, ih]
      by_cases h : size * (n + 1) ≤ len
      · have hk : n + 1 ≤ len / size := by
          rw [Nat.le_div_iff_mul_le hs, Nat.mul_comm]; exact h
        have hmin1 : min (n + 1) (len / size) = n + 1 := by omega
        have hmin2 : min n (len / size) = n := by omega
        simp [h, hmin1, hmin2, List.range_succ]
      · have hk : ¬ (n + 1 ≤ len / size) := by
          rw [Nat.le_div_iff_mul_le hs, Nat.mul_comm]; exact h
        have hmin : min (n + 1) (len / size) = min n (len / size) := by omega
        simp [h, hmin]

/-- Closed form of the trailing-window loop. -/
theorem trailingWindowSums_closed (totalData : List JsrDownloadPoint) (size w : Nat)
    (hs : 0 < size) :
    trailingWindowSums totalData size w
      = ((List.range (min w (totalData.length / size))).map
          (windowSum totalData size)).reverse := by
  unfold trailingWindowSums
  rw [trailingWindowSums_foldl, filter_range_le _ _ _ hs, List.append_nil]

/-- Number of window sums produced by the loop. -/
theorem trailingWindowSums_length (totalData : List JsrDownloadPoint) (size w : Nat)
    (hs : 0 < size) :
    (trailingWindowSums totalData size w).length = min w (totalData.length / size) := by
  rw [trailingWindowSums_closed _ _ _ hs]; simp

/-- Element j (0-based, oldest first) of the loop output is the sum of window
k - 1 - j, where k is the number of windows produced. -/
theorem trailingWindowSums_getElem (totalData : List JsrDownloadPoint) (size w j : Nat)
    (hs : 0 < size) (hj : j < min w (totalData.length / size)) :
    (trailingWindowSums totalData size w)[j]?
      = some (windowSum totalData size (min w (totalData.length / size) - 1 - j)) := by
  rw [trailingWindowSums_closed _ _ _ hs]
  have hlen : j < (((List.range (min w (totalData.length / size))).map
      (windowSum totalData size))).length := by
    simpa using hj
  rw [List.getElem?_reverse hlen]
  simp only [List.length_map, List.length_range]
  rw [List.getElem?_map, List.getElem?_range (by omega)]
  rfl

/-- Claim C1: weeklySums holds one sum per trailing non-overlapping 7-point
window of the 4-window family, oldest first; window i (0 = most recent)
covers points [len - 7*(i+1), len - 7*i) and is included only when its start
index is nonnegative, so the array has min 4 (len / 7) entries and a 5-point
series yields []. -/
theorem weeklySums_trailing_windows (d : JsrDownloads) :
    (getPackageDownloadSummary (Except.ok d)).weeklySums.length
        = min 4 (d.total.length / 7) ∧
    (∀ j, j < min 4 (d.total.length / 7) →
      (getPackageDownloadSummary (Except.ok d)).weeklySums[j]?
        = some (windowSum d.total 7 (min 4 (d.total.length / 7) - 1 - j))) ∧
    (d.total.length = 5 → (getPackageDownloadSummary (Except.ok d)).weeklySums = []) := by
  have hws : (getPackageDownloadSummary (Except.ok d)).weeklySums
      = trailingWindowSums d.total 7 4 := rfl
  refine ⟨?_, ?_, ?_⟩
  · rw [hws]; exact trailingWindowSums_length d.total 7 4 (by decide)
  · intro j hj
    rw [hws]
    exact trailingWindowSums_getElem d.total 7 4 j (by decide) hj
  · intro h5
    rw [hws]
    have hl := trailingWindowSums_length d.total 7 4 (by decide)
    rw [h5] at hl
    exact List.length_eq_zero.mp (hl.trans (by decide))

/-- Witness for C1: a 14-point series has two window sums and position 0 is
the older full window; a 5-point series yields no window sum at all. -/
theorem weeklySums_trailing_windows_w :
    (getPackageDownloadSummary (Except.ok seriesFourteen)).weeklySums[0]?
        = some (windowSum seriesFourteen.total 7
            (min 4 (seriesFourteen.total.length / 7) - 1 - 0)) ∧
    (getPackageDownloadSummary (Except.ok seriesFive)).weeklySums = [] :=
  ⟨(weeklySums_trailing_windows seriesFourteen).2.1 0 (by decide),
   (weeklySums_trailing_windows seriesFive).2.2 (by decide)⟩

/-- Claim C6: monthlySums has length min 6 (len / 30); element j (oldest
first) is the sum of the 30-point window with index k - 1 - j, and each kept
window slice holds exactly 30 points (no partial window at the far edge). -/
theorem monthlySums_trailing_windows (d : JsrDownloads) :
    (getPackageDownloadSummary (Except.ok d)).monthlySums.length
        = min 6 (d.total.length / 30) ∧
    (∀ j, j < min 6 (d.total.length / 30) →
      (getPackageDownloadSummary (Except.ok d)).monthlySums[j]?
        = some (windowSum d.total 30 (min 6 (d.total.length / 30) - 1 - j)) ∧
      ((d.total.drop (d.total.length - 30 * (min 6 (d.total.length / 30) - j))).take
          30).length = 30) := by
  have hms : (getPackageDownloadSummary (Except.ok d)).monthlySums
      = trailingWindowSums d.total 30 6 := rfl
  constructor
  · rw [hms]; exact trailingWindowSums_length d.total 30 6 (by decide)
  · intro j hj
    constructor
    · rw [hms]; exact trailingWindowSums_getElem d.total 30 6 j (by decide) hj
    · have hk : min 6 (d.total.length / 30) ≤ d.total.length / 30 := Nat.min_le_right _ _
      have h30 : (min 6 (d.total.length / 30)) * 30 ≤ d.total.length :=
        (Nat.le_div_iff_mul_le (by decide)).mp hk
      simp only [List.length_take, List.length_drop]
      omega

/-- Witness for C6: a 65-point series has exactly two monthly sums; position 1
is the most recent full 30-point window and its slice has 30 points. -/
theorem monthlySums_trailing_windows_w :
    (getPackageDownloadSummary (Except.ok seriesSixtyFive)).monthlySums[1]?
        = some (windowSum seriesSixtyFive.total 30
            (min 6 (seriesSixtyFive.total.length / 30) - 1 - 1)) ∧
    ((seriesSixtyFive.total.drop
        (seriesSixtyFive.total.length
          - 30 * (min 6 (seriesSixtyFive.total.length / 30) - 1))).take 30).length = 30 :=
  ⟨((monthlySums_trailing_windows seriesSixtyFive).2 1 (by decide)).1,
   ((monthlySums_trailing_windows seriesSixtyFive).2 1 (by decide)).2⟩

/-- Claim C10: activityEntries counts only the points of the trailing
30-point recent window, i.e. min (total series length) 30, not the total
number of points. -/
theorem activityEntries_recent_window (d : JsrDownloads) :
    (getPackageDownloadSummary (Except.ok d)).activityEntries = min d.total.length 30 ∧
    (getPackageDownloadSummary (Except.ok d)).activityEntries
        = (d.total.drop (d.total.length - 30)).length := by
  have ha : (getPackageDownloadSummary (Except.ok d)).activityEntries
      = (d.total.drop (d.total.length - 30)).length := rfl
  constructor
  · rw [ha]; simp only [List.length_drop]; omega
  · exact ha

/-- Claim C2 counterexample: an empty series that fetches successfully yields
an all-zero summary whose error field is NOT set, contradicting the claim
that the error field is set whenever the source series is empty. -/
theorem empty_series_sets_no_error :
    (getPackageDownloadSummary (Except.ok emptySeries)).error = none ∧
    (getPackageDownloadSummary (Except.ok emptySeries)).totalDownloads = 0 :=
  ⟨rfl, rfl⟩

/-- Claim C2 (amended): a failed fetch yields the all-zero summary with the
error field set; an empty series that fetches successfully yields the same
all-zero, structurally complete summary but with no error field. -/
theorem summary_zero_degradation (e : String) (d : JsrDownloads)
    (h : d.total = [] ∧ d.recentVersions = []) :
    getPackageDownloadSummary (Except.error e)
      = { totalDownloads := 0, recentDownloads := 0, latestVersion := ("Unknown"),
          latestVersionDownloads := 0, activityEntries := 0, lastActivity := none,
          last7DaysAverage := 0, weeklyAverage := 0, monthlyAverage := 0,
          weeklySums := [], monthlySums := [], error := some e } ∧
    getPackageDownloadSummary (Except.ok d)
      = { totalDownloads := 0, recentDownloads := 0, latestVersion := ("Unknown"),
          latestVersionDownloads := 0, activityEntries := 0, lastActivity := none,
          last7DaysAverage := 0, weeklyAverage := 0, monthlyAverage := 0,
          weeklySums := [], monthlySums := [], error := none } := by
  obtain ⟨t, rv⟩ := d
  have h1 : t = [] := h.1
  have h2 : rv = [] := h.2
  subst h1; subst h2
  exact ⟨rfl, rfl⟩

/-- Witness for the amended C2 at a concrete failure message and the concrete
empty series. -/
theorem summary_zero_degradation_w :
    getPackageDownloadSummary (Except.error ("HTTP error! status: 500"))
      = { totalDownloads := 0, recentDownloads := 0, latestVersion := ("Unknown"),
          latestVersionDownloads := 0, activityEntries := 0, lastActivity := none,
          last7DaysAverage := 0, weeklyAverage := 0, monthlyAverage := 0,
          weeklySums := [], monthlySums := [],
          error := some ("HTTP error! status: 500") } ∧
    getPackageDownloadSummary (Except.ok emptySeries)
      = { totalDownloads := 0, recentDownloads := 0, latestVersion := ("Unknown"),
          latestVersionDownloads := 0, activityEntries := 0, lastActivity := none,
          last7DaysAverage := 0, weeklyAverage := 0, monthlyAverage := 0,
          weeklySums := [], monthlySums := [], error := none } :=
  summary_zero_degradation ("HTTP error! status: 500") emptySeries ⟨rfl, rfl⟩

/-- Claim C7: the summary computation is a total function of the fetch
outcome; a failed fetch is encoded as the all-zero summary with the error
field carrying the message, and a successful fetch never sets error. -/
theorem download_summary_never_throws (e : String) (d : JsrDownloads) :
    getPackageDownloadSummary (Except.error e)
      = { totalDownloads := 0, recentDownloads := 0, latestVersion := ("Unknown"),
          latestVersionDownloads := 0, activityEntries := 0, lastActivity := none,
          last7DaysAverage := 0, weeklyAverage := 0, monthlyAverage := 0,
          weeklySums := [], monthlySums := [], error := some e } ∧
    (getPackageDownloadSummary (Except.ok d)).error = none :=
  ⟨rfl, rfl⟩

/-- Every hit surviving the self-exclusion filter has a document id different
from the id of the resolved original package. -/
theorem survivingHits_excludes (q : String) (o : FindSimilarOptions)
    (backend : SearchParams → BackendOutcome) (pkg : PackageInfo)
    (h : resolvedPackage q backend = some pkg) :
    ∀ hit ∈ survivingHits q o backend, (hit.document.id != pkg.id) = true := by
  intro hit hmem
  simp only [survivingHits, h] at hmem
  have hmem2 := List.take_subset _ _ hmem
  exact (List.mem_filter.mp hmem2).2

/-- Claim C3: with downloads included, a per-hit summary-fetch failure (a
throw, or a summary reporting an error) degrades only that hit to no
summary: the result is the surviving hit list mapped through the per-hit
enrichment, so no hit is dropped, order and documents are preserved, the
call reports no error, and a hit whose fetch succeeded without error carries
its summary. -/
theorem findSimilar_per_hit_degradation (q : String) (o : FindSimilarOptions)
    (backend : SearchParams → BackendOutcome)
    (fd : String → String → Except String DownloadSummary)
    (hinc : o.includeDownloads ≠ some false)
    (hres : (queryOrama q firstSearchOptions backend).hits ≠ []) :
    (findSimilarPackages q o backend fd).error = none ∧
    (findSimilarPackages q o backend fd).hits
        = (survivingHits q o backend).map (enhanceHit fd) ∧
    (findSimilarPackages q o backend fd).hits.length
        = (survivingHits q o backend).length ∧
    (∀ hit e, fd hit.document.scope hit.document.name = Except.error e →
      enhanceHit fd hit
        = { document := hit.document, score := hit.score, downloads := none }) ∧
    (∀ hit s, fd hit.document.scope hit.document.name = Except.ok s → s.error = none →
      enhanceHit fd hit
        = { document := hit.document, score := hit.score, downloads := some s }) := by
  have hpkg : ∃ pkg, resolvedPackage q backend = some pkg := by
    unfold resolvedPackage
    cases hl : (queryOrama q firstSearchOptions backend).hits with
    | nil => exact absurd hl hres
    | cons a t => exact ⟨a.document, rfl⟩
  obtain ⟨pkg, hpkg⟩ := hpkg
  have hb : (o.includeDownloads != some false) = true := bne_iff_ne.mpr hinc
  refine ⟨?_, ?_, ?_, ?_, ?_⟩
  · simp [findSimilarPackages, hpkg, hb]
  · simp [findSimilarPackages, hpkg, hb]
  · simp [findSimilarPackages, hpkg, hb]
  · intro hit e hf
    simp [enhanceHit, attachedSummary, hf]
  · intro hit s hf hserr
    simp [enhanceHit, attachedSummary, hf, hserr]

/-- Witness for C3: with a backend returning two hits and a fetch that fails
for one of them, the call still reports no error and returns exactly the
enriched surviving hits. -/
theorem findSimilar_per_hit_degradation_w :
    (findSimilarPackages ("o") { } backendDegrade fetchDegrade).error = none ∧
    (findSimilarPackages ("o") { } backendDegrade fetchDegrade).hits
        = (survivingHits ("o") { } backendDegrade).map (enhanceHit fetchDegrade) :=
  ⟨(findSimilar_per_hit_degradation ("o") { } backendDegrade fetchDegrade
      (by decide) (by decide)).1,
   (findSimilar_per_hit_degradation ("o") { } backendDegrade fetchDegrade
      (by decide) (by decide)).2.1⟩

/-- Claim C4: whenever the identifier resolves, no returned hit carries the
document id of the resolved original package; the exclusion is by id equality. -/
theorem findSimilar_self_exclusion (q : String) (o : FindSimilarOptions)
    (backend : SearchParams → BackendOutcome)
    (fd : String → String → Except String DownloadSummary) (pkg : PackageInfo)
    (hp : (findSimilarPackages q o backend fd).originalPackage = some pkg) :
    ((findSimilarPackages q o backend fd).hits.all
        (fun hit => hit.document.id != pkg.id)) = true := by
  cases hr : resolvedPackage q backend with
  | none =>
      simp [findSimilarPackages, hr] at hp
  | some p0 =>
      simp only [findSimilarPackages, hr] at hp
      have hpe : p0 = pkg := by simpa using hp
      subst hpe
      simp only [findSimilarPackages, hr]
      cases hb : (o.includeDownloads != some false) with
      | false =>
          simp only [hb, Bool.false_eq_true, if_false, List.all_eq_true]
          intro x hx
          obtain ⟨y, hy, rfl⟩ := List.mem_map.mp hx
          exact survivingHits_excludes q o backend p0 hr y hy
      | true =>
          simp only [hb, if_true, List.all_eq_true]
          intro x hx
          obtain ⟨y, hy, rfl⟩ := List.mem_map.mp hx
          exact survivingHits_excludes q o backend p0 hr y hy

/-- Witness for C4: a backend that ranks the original package first in the
similarity search still yields a hit list free of the original id. -/
theorem findSimilar_self_exclusion_w :
    ((findSimilarPackages ("o") { } backendSelf fetchAlwaysFails).hits.all
        (fun hit => hit.document.id != pkgOrig.id)) = true :=
  findSimilar_self_exclusion ("o") { } backendSelf fetchAlwaysFails pkgOrig (by decide)

/-- Claim C5 (code bug): the options of the similarity search are written as
limit: (options.limit or 10) + 1 followed by the spread of the caller
options, so a caller-supplied limit of 5 reaches the backend as 5, not 6;
only the no-limit default keeps the extra result (10 + 1 = 11).  The
description-weighted boost does reach the backend. -/
theorem similar_search_limit_overridden :
    (buildSearchParams ("q") (similarSearchOptions { limit := some 5 })).limit = 5 ∧
    (buildSearchParams ("q") (similarSearchOptions { limit := some 5 })).boost
        = similarSearchBoost ∧
    (buildSearchParams ("q") (similarSearchOptions { })).limit = 11 :=
  ⟨rfl, rfl, rfl⟩

/-- Claim C8 counterexample: a backend error on the first search is converted
by queryOrama into an empty hit list, so findSimilarPackages reports
Package not found even though the cause was a backend error, not a genuine
empty result. -/
theorem not_found_on_backend_error :
    (findSimilarPackages ("@std/http") { } backendDown fetchAlwaysFails).error
        = some ("Package not found") ∧
    (queryOrama ("@std/http") firstSearchOptions backendDown).error
        = some ("Search failed: network down") := by
  constructor
  · rfl
  · rfl

/-- Claim C8 (amended): the Package-not-found outcome occurs exactly when the
first limit-1 search yields an empty hit list; since queryOrama converts
backend errors and null responses into empty-hit results, a backend failure
on that search also produces this outcome. -/
theorem not_found_iff_first_search_empty (q : String) (o : FindSimilarOptions)
    (backend : SearchParams → BackendOutcome)
    (fd : String → String → Except String DownloadSummary) :
    (findSimilarPackages q o backend fd).error = some ("Package not found")
      ↔ (queryOrama q firstSearchOptions backend).hits = [] := by
  cases hl : (queryOrama q firstSearchOptions backend).hits with
  | nil =>
      have hr : resolvedPackage q backend = none := by
        unfold resolvedPackage; rw [hl]; rfl
      simp [findSimilarPackages, hr]
  | cons a t =>
      have hr : resolvedPackage q backend = some a.document := by
        unfold resolvedPackage; rw [hl]; rfl
      simp [findSimilarPackages, hr]

/-- Claim C9 (amended): only identifiers of the form scope/name or
at-sign scope/name enter the strategy chain: for them the exact lookup is
tried first, its failure triggers the single fallback fuzzy search, and only
when that also returns no hit is the identifier recorded as not found.  An
identifier that does not match the pattern (such as a bare name with no
slash) is recorded as not found with an invalid-format error immediately,
and no lookup of either kind is attempted. -/
theorem compare_resolution_chain (env : CompareEnv) (s scope name : String)
    (pkg details : PackageInfo) :
    (parsePackageName s = none → resolveIdentifier env s = invalidFormatEntry s) ∧
    (parsePackageName s = some (scope, name) →
      exactLookup env scope name = Except.ok (pkg, details) →
      (resolveIdentifier env s).found = true ∧ (resolveIdentifier env s).fallback = false) ∧
    (parsePackageName s = some (scope, name) →
      (exactLookup env scope name).toOption = none →
      ((queryOrama s fallbackSearchOptions env.backend).hits = [] →
        resolveIdentifier env s
          = { id := s, found := false, error := some ("Package not found") }) ∧
      (∀ hit, (queryOrama s fallbackSearchOptions env.backend).hits.head? = some hit →
        (resolveIdentifier env s).found = true ∧ (resolveIdentifier env s).fallback = true)) := by
  refine ⟨?_, ?_, ?_⟩
  · intro h
    simp [resolveIdentifier, h]
  · intro hp he
    simp [resolveIdentifier, hp, he]
  · intro hp hopt
    cases hex : exactLookup env scope name with
    | ok pr =>
        rw [hex] at hopt
        simp [Except.toOption] at hopt
    | error e =>
        constructor
        · intro hnil
          have hh : (queryOrama s fallbackSearchOptions env.backend).hits.head? = none := by
            rw [hnil]; rfl
          simp [resolveIdentifier, hp, hex, hh]
        · intro hit hh
          simp [resolveIdentifier, hp, hex, hh]

/-- Witness for the amended C9: in an environment whose exact lookup fails
and whose fallback search returns one hit, a well-formed identifier resolves
through the fallback path. -/
theorem compare_resolution_chain_w :
    (resolveIdentifier envFallback ("@std/http")).found = true ∧
    (resolveIdentifier envFallback ("@std/http")).fallback = true :=
  ((compare_resolution_chain envFallback ("@std/http") ("std") ("http") pkgRich pkgRich).2.2
      (by decide) (by decide)).2 { document := pkgRich, score := 1 } (by decide)

/-- Claim C9 counterexample: a bare name without a slash is recorded as
not found with an invalid-format error even in an environment where both the
exact lookup and the fallback search would succeed: no strategy is attempted,
contrary to the claim that every identifier goes through exact lookup and
then fuzzy fallback before being recorded as not found. -/
theorem compare_bare_name_rejected :
    (resolveIdentifier envRich ("http")).found = false ∧
    (resolveIdentifier envRich ("http")).error
        = some ("Invalid package format. Use @scope/name or scope/name") ∧
    (queryOrama ("http") fallbackSearchOptions envRich.backend).hits ≠ [] ∧
    envRich.infoDirect ("http") ("http") = Except.ok pkgRich ∧
    (comparePackages envRich [("http")]).1 = [] ∧
    (comparePackages envRich [("http")]).2 = [invalidFormatEntry ("http")] := by
  refine ⟨by decide, by decide, by decide, rfl, by decide, by decide⟩
